import Mathlib

/-!
Verification of the Smart-Deals-hunter affiliate bot core against its
natural-language specification.

The development shallowly embeds the relevant Python source:

* `affiliate_link_generator.py` (`RealAffiliateGenerator`): URL string
  building, catalog-identifier extraction, and the per-network dispatch.
* `price_monitor.py` (`PriceMonitor`): the price-update pass, the
  daily-deal reselection pass and the retention sweep, modelled as pure
  functions over an explicit list-of-rows database state.
* `notifications.py` (`NotificationManager`): the per-recipient send loop,
  modelled with an explicit delivery-outcome oracle.

Modelling conventions: Python floats are embedded as rationals (`ℚ`);
timestamps are integers counting seconds (2 hours = 7200, 90 days =
7776000); SQL `NULL`-able columns are `Option`; Python truthiness of a
string/float is explicit (`""`/`0` are falsy); the randomized price
simulation and the random daily-deal sample are oracles passed as
arguments so that theorems quantify over every possible draw.
ASCII-level lowering is used for `str.lower`.
-/

namespace SmartDeals

/-! ## String utilities (Python `str`/`urllib` behaviour) -/

/-- Predicate `startsWithL needle hay`: `hay` begins with `needle`. -/
def startsWithL : List Char → List Char → Bool
  | [], _ => true
  | _ :: _, [] => false
  | a :: as, b :: bs => a = b && startsWithL as bs

/-- Predicate `containsSubL needle hay`: `needle` occurs contiguously in `hay`
(Python's `needle in hay`). -/
def containsSubL (needle : List Char) : List Char → Bool
  | [] => startsWithL needle []
  | c :: rest => startsWithL needle (c :: rest) || containsSubL needle rest

/-- Python `needle in hay` on strings. -/
def containsSub (needle hay : String) : Bool :=
  containsSubL needle.toList hay.toList

/-- Python `str.lower` (ASCII range). -/
def lowerStr (s : String) : String := String.mk (s.toList.map Char.toLower)

/-- Python `str.replace(' ', '_')`. -/
def replUnderscore (s : String) : String :=
  String.mk (s.toList.map (fun c => if c = ' ' then '_' else c))

/-- Upper-case hex digit of `n < 16`, as used by `urllib.parse.quote`. -/
def hexDigit (n : ℕ) : Char :=
  if n < 10 then Char.ofNat (48 + n) else Char.ofNat (55 + n)

/-- Bytes `urllib.parse` never percent-encodes: ASCII letters, digits,
`_`, `.`, `-`, `~`. -/
def isUrlSafe (n : ℕ) : Bool :=
  (65 ≤ n && n ≤ 90) || (97 ≤ n && n ≤ 122) || (48 ≤ n && n ≤ 57) ||
    n = 95 || n = 46 || n = 45 || n = 126

/-- UTF-8 encoding of one code point, as byte values. -/
def utf8Bytes (c : Char) : List ℕ :=
  let n := c.toNat
  if n < 128 then [n]
  else if n < 2048 then [192 + n / 64, 128 + n % 64]
  else if n < 65536 then [224 + n / 4096, 128 + (n / 64) % 64, 128 + n % 64]
  else [240 + n / 262144, 128 + (n / 4096) % 64, 128 + (n / 64) % 64, 128 + n % 64]

/-- One byte under `urllib.parse.quote_plus`: safe bytes pass through,
space becomes `+`, the rest is `%XX`. -/
def quotePlusByte (n : ℕ) : List Char :=
  if isUrlSafe n then [Char.ofNat n]
  else if n = 32 then ['+']
  else ['%', hexDigit (n / 16), hexDigit (n % 16)]

/-- One byte under `urllib.parse.quote` with its default `safe='/'`:
like `quote_plus` but `/` passes through and space is `%20`. -/
def quoteByte (n : ℕ) : List Char :=
  if isUrlSafe n || n = 47 then [Char.ofNat n]
  else ['%', hexDigit (n / 16), hexDigit (n % 16)]

/-- Python `urllib.parse.quote_plus` on a string. -/
def pyQuotePlus (s : String) : String :=
  String.mk (List.flatten (s.toList.map (fun c => List.flatten ((utf8Bytes c).map quotePlusByte))))

/-- Python `urllib.parse.quote` (default `safe='/'`) on a string. -/
def pyQuote (s : String) : String :=
  String.mk (List.flatten (s.toList.map (fun c => List.flatten ((utf8Bytes c).map quoteByte))))

/-- Python `urllib.parse.urlencode` over the dict's insertion-ordered pairs. -/
def urlencode : List (String × String) → String
  | [] => ""
  | [kv] => pyQuotePlus kv.1 ++ "=" ++ pyQuotePlus kv.2
  | kv :: rest => pyQuotePlus kv.1 ++ "=" ++ pyQuotePlus kv.2 ++ "&" ++ urlencode rest

/-- Python `x or y` on optional strings (`""` is falsy). -/
def pyOrStr (x y : Option String) : Option String :=
  match x with
  | some s => if s = "" then y else some s
  | none => y

/-! ## `extract_amazon_asin` / `extract_ebay_item_id`

The regular expressions used by the source are literal-prefix patterns
followed by a fixed or greedy character-class run, so `re.search` is the
leftmost position at which the pattern matches. -/

/-- Character class `[A-Z0-9]` of the ASIN patterns. -/
def isCatChar (c : Char) : Bool :=
  ('A' ≤ c && c ≤ 'Z') || ('0' ≤ c && c ≤ '9')

/-- Take exactly `n` `[A-Z0-9]` characters, returning them and the rest. -/
def takeCat : ℕ → List Char → Option (List Char × List Char)
  | 0, cs => some ([], cs)
  | _ + 1, [] => none
  | n + 1, c :: cs =>
    if isCatChar c then
      match takeCat n cs with
      | some pr => some (c :: pr.1, pr.2)
      | none => none
    else none

/-- Tail condition of patterns 1-4: anything may follow the identifier. -/
def tailOkAny (_ : List Char) : Bool := true

/-- Tail condition of pattern 5, `(?:[/?]|$)`. -/
def tailOkSlashQ : List Char → Bool
  | [] => true
  | c :: _ => c = '/' || c = '?'

/-- Try one ASIN pattern (`lit` then ten `[A-Z0-9]` then `tailOk`) at the
head of `cs`, returning the captured group. -/
def matchAsinAt (lit : List Char) (tailOk : List Char → Bool) (cs : List Char) :
    Option (List Char) :=
  if startsWithL lit cs then
    match takeCat 10 (cs.drop lit.length) with
    | some pr => if tailOk pr.2 then some pr.1 else none
    | none => none
  else none

/-- Model of `re.search` for one ASIN pattern: leftmost position wins. -/
def searchAsin (lit : List Char) (tailOk : List Char → Bool) : List Char → Option (List Char)
  | [] => matchAsinAt lit tailOk []
  | c :: rest =>
    match matchAsinAt lit tailOk (c :: rest) with
    | some cap => some cap
    | none => searchAsin lit tailOk rest

/-- Embeds `RealAffiliateGenerator.extract_amazon_asin`: the five patterns are
tried in source order; the first that matches anywhere wins. -/
def extract_amazon_asin (url : String) : Option String :=
  let cs := url.toList
  match searchAsin "/dp/".toList tailOkAny cs with
  | some a => some (String.mk a)
  | none =>
  match searchAsin "/gp/product/".toList tailOkAny cs with
  | some a => some (String.mk a)
  | none =>
  match searchAsin "/product/".toList tailOkAny cs with
  | some a => some (String.mk a)
  | none =>
  match searchAsin "asin=".toList tailOkAny cs with
  | some a => some (String.mk a)
  | none =>
  match searchAsin "/".toList tailOkSlashQ cs with
  | some a => some (String.mk a)
  | none => none

/-- Maximal digit run at the head of a list (greedy `[0-9]+`). -/
def takeDigitRun : List Char → List Char × List Char
  | [] => ([], [])
  | c :: cs =>
    if ('0' ≤ c && c ≤ '9') then
      let r := takeDigitRun cs
      (c :: r.1, r.2)
    else ([], c :: cs)

/-- Try one eBay pattern (`lit` then at least `minLen` digits) at the head. -/
def matchNumAt (lit : List Char) (minLen : ℕ) (cs : List Char) : Option (List Char) :=
  if startsWithL lit cs then
    let r := takeDigitRun (cs.drop lit.length)
    if minLen ≤ r.1.length then some r.1 else none
  else none

/-- Model of `re.search` for one eBay numeric pattern. -/
def searchNum (lit : List Char) (minLen : ℕ) : List Char → Option (List Char)
  | [] => matchNumAt lit minLen []
  | c :: rest =>
    match matchNumAt lit minLen (c :: rest) with
    | some cap => some cap
    | none => searchNum lit minLen rest

/-- Embeds `RealAffiliateGenerator.extract_ebay_item_id`. -/
def extract_ebay_item_id (url : String) : Option String :=
  let cs := url.toList
  match searchNum "/itm/".toList 1 cs with
  | some d => some (String.mk d)
  | none =>
  match searchNum "item=".toList 1 cs with
  | some d => some (String.mk d)
  | none =>
  match searchNum "/".toList 12 cs with
  | some d => some (String.mk d)
  | none => none

/-! ## Per-network link builders (`RealAffiliateGenerator`)

Credentials are optional settings; in the source a credential is usable
iff the attribute exists and is truthy, so each is an `Option String`
whose `none`/`some ""` states are both "not configured". The Amazon tag
is read directly from `Config`, where `os.getenv` yields `None` when
unset; `""` encodes that falsy state. -/

structure Config where
  AMAZON_ASSOCIATE_TAG : String := ""
  EBAY_CAMPAIGN_ID : Option String := none
  ALIEXPRESS_TRACKING_ID : Option String := none
  WALMART_PUBLISHER_ID : Option String := none
  TARGET_PUBLISHER_ID : Option String := none
  BESTBUY_PUBLISHER_ID : Option String := none
deriving DecidableEq

/-- Python truthiness of an optional credential. -/
def optTruthy : Option String → Bool
  | some s => !(s = "")
  | none => false

/-- The `else` branch of `generate_amazon_link`: append the tag to the
existing URL, with `&` when a query string is already present. -/
def amazonTagAppend (tag url : String) : String :=
  url ++ (if url.toList.contains '?' then "&" else "?") ++ "tag=" ++ tag

/-- Embeds `RealAffiliateGenerator.generate_amazon_link`. -/
def generate_amazon_link (tag : String) (product_url : String)
    (product_id : Option String) : String :=
  if tag = "" then product_url
  else
    match pyOrStr (extract_amazon_asin product_url) product_id with
    | some asin =>
      if asin = "" then amazonTagAppend tag product_url
      else "https://www.amazon.com/dp/" ++ asin ++ "?tag=" ++ tag ++ "&linkCode=ogi&th=1&psc=1"
    | none => amazonTagAppend tag product_url

/-- Embeds `RealAffiliateGenerator.generate_ebay_link`; `now` stands for
`int(time.time())`. A missing `icep_item` renders as `str(None)`. -/
def generate_ebay_link (campaign : Option String) (now : ℤ) (product_url : String)
    (product_id : Option String) : String :=
  if optTruthy campaign = false then product_url
  else
    let cid := campaign.getD ""
    let item := match pyOrStr product_id (extract_ebay_item_id product_url) with
      | some s => s
      | none => "None"
    "https://rover.ebay.com/rover/1/711-53200-19255-0/1?" ++
      urlencode [("icep_ff3", "2"), ("pub", cid), ("toolid", "10001"),
        ("campid", "5338452986"), ("customid", ""), ("icep_item", item),
        ("ipn", "psmain"), ("icep_vectorid", "229466"), ("kwid", "902099"),
        ("mtid", "824"), ("kw", "lg"), ("srcrot", "711-53200-19255-0"),
        ("rvr_id", "2348474186"), ("rvr_ts", toString now)] ++
      "&mpre=" ++ pyQuote product_url

/-- Embeds `RealAffiliateGenerator.generate_aliexpress_link`. -/
def generate_aliexpress_link (tracking : Option String) (product_url : String) : String :=
  if optTruthy tracking = false then product_url
  else
    product_url ++ (if product_url.toList.contains '?' then "&" else "?") ++
      "aff_trace_key=" ++ tracking.getD "" ++
      "&terminal_id=d4c0d3b6c8a44e6b9c8f2e1a3b5d7f9e"

/-- Embeds `RealAffiliateGenerator.generate_walmart_link`. -/
def generate_walmart_link (pub : Option String) (product_url : String) : String :=
  if optTruthy pub = false then product_url
  else
    "https://goto.walmart.com/c/2003851/565706/9383?veh=aff&sourceid=" ++
      pub.getD "" ++ "&u=" ++ pyQuote product_url

/-- Embeds `RealAffiliateGenerator.generate_target_link`. -/
def generate_target_link (pub : Option String) (product_url : String) : String :=
  if optTruthy pub = false then product_url
  else
    "https://goto.target.com/c/2003851/81938/2092?veh=aff&sourceid=" ++
      pub.getD "" ++ "&u=" ++ pyQuote product_url

/-- Embeds `RealAffiliateGenerator.generate_bestbuy_link`. -/
def generate_bestbuy_link (pub : Option String) (product_url : String) : String :=
  if optTruthy pub = false then product_url
  else
    "https://bestbuy.7tiv.net/c/2003851/633495/10014?veh=aff&sourceid=" ++
      pub.getD "" ++ "&u=" ++ pyQuote product_url

/-- Embeds `RealAffiliateGenerator.generate_generic_tracking_link`. -/
def generate_generic_tracking_link (product_url store_name : String) : String :=
  product_url ++ (if product_url.toList.contains '?' then "&" else "?") ++
    urlencode [("utm_source", "telegram_bot"), ("utm_medium", "affiliate"),
      ("utm_campaign", "deals_bot"),
      ("utm_content", replUnderscore (lowerStr store_name))]

/-- Embeds `RealAffiliateGenerator.generate_affiliate_link`: case-insensitive
substring dispatch in source order, generic UTM fallback otherwise. -/
def generate_affiliate_link (cfg : Config) (now : ℤ) (product_url store_name : String)
    (product_id : Option String) : String :=
  let s := lowerStr store_name
  if containsSub "amazon" s then
    generate_amazon_link cfg.AMAZON_ASSOCIATE_TAG product_url product_id
  else if containsSub "ebay" s then
    generate_ebay_link cfg.EBAY_CAMPAIGN_ID now product_url product_id
  else if containsSub "aliexpress" s then
    generate_aliexpress_link cfg.ALIEXPRESS_TRACKING_ID product_url
  else if containsSub "walmart" s then
    generate_walmart_link cfg.WALMART_PUBLISHER_ID product_url
  else if containsSub "target" s then
    generate_target_link cfg.TARGET_PUBLISHER_ID product_url
  else if containsSub "bestbuy" s || containsSub "best buy" s then
    generate_bestbuy_link cfg.BESTBUY_PUBLISHER_ID product_url
  else
    generate_generic_tracking_link product_url s

/-! ## `PriceMonitor` state and passes

A `Product` row carries the columns the monitor reads or writes. -/

structure Product where
  id : ℕ
  price : Option ℚ
  original_price : Option ℚ
  discount_percentage : Option ℚ
  rating : Option ℚ
  is_active : Bool
  is_daily_deal : Bool
  updated_at : ℤ
deriving DecidableEq

/-- Loop body of `PriceMonitor.update_product_prices` for one product.
`f` is the draw of `_simulate_price_change` on a truthy current price;
a falsy (`NULL`/`0`) price makes the simulation return it unchanged, so
nothing happens. Returns the written row and whether a price-drop
notification was queued for it. -/
def priceUpdateStep (f : ℚ → ℚ) (now : ℤ) (p : Product) : Product × Bool :=
  match p.price with
  | none => (p, false)
  | some old_price =>
    if old_price = 0 then (p, false)
    else
      let new_price := f old_price
      if new_price = old_price then (p, false)
      else
        let p1 :=
          match p.original_price with
          | some orig =>
            if orig = 0 then p
            else
              let discount_pct := (orig - new_price) / orig * 100
              { p with discount_percentage :=
                  if 0 < discount_pct then some discount_pct else none }
          | none => p
        ({ p1 with price := some new_price, updated_at := now },
         decide (new_price < old_price * (9 / 10)))

/-- Selection predicate of the price-update query: active and stale
(`updated_at < now - 2h`). -/
def updateEligible (now : ℤ) (p : Product) : Bool :=
  p.is_active && decide (p.updated_at < now - 7200)

/-- The query `filter(is_active, updated_at < cutoff).limit(50)`. -/
def updateBatch (now : ℤ) (products : List Product) : List Product :=
  (products.filter (updateEligible now)).take 50

/-- Image of one row under the pass: selected rows are stepped, the
rest are untouched. -/
def updateOne (f : ℚ → ℚ) (now : ℤ) (selIds : List ℕ) (p : Product) : Product :=
  if p.id ∈ selIds then (priceUpdateStep f now p).1 else p

/-- Embeds `PriceMonitor.update_product_prices` as a transformation of the
products table. -/
def update_product_prices (f : ℚ → ℚ) (now : ℤ) (products : List Product) :
    List Product :=
  products.map (updateOne f now ((updateBatch now products).map (fun p => p.id)))

/-! ### Daily-deal reselection -/

/-- SQL comparison `col >= t` on a `NULL`-able column: `NULL` never
satisfies it. -/
def optGE (o : Option ℚ) (t : ℚ) : Bool :=
  match o with
  | some v => decide (t ≤ v)
  | none => false

/-- Candidate filter of `refresh_daily_deals`: active, discount ≥ 15,
rating ≥ 4.0. -/
def dealOk (p : Product) : Bool :=
  p.is_active && optGE p.discount_percentage 15 && optGE p.rating 4

/-- Sort key used by `order_by(discount_percentage.desc())`. -/
def discKey (p : Product) : ℚ :=
  match p.discount_percentage with
  | some v => v
  | none => 0

/-- Insert into a descending-by-discount list. -/
def insertDescByDiscount (p : Product) : List Product → List Product
  | [] => [p]
  | q :: rest =>
    if discKey q < discKey p then p :: q :: rest
    else q :: insertDescByDiscount p rest

/-- Insertion sort, descending by discount. -/
def sortDescByDiscount : List Product → List Product
  | [] => []
  | p :: rest => insertDescByDiscount p (sortDescByDiscount rest)

/-- The candidate query: filtered, ordered by discount descending,
`limit(20)`. -/
def dealCandidates (products : List Product) : List Product :=
  (sortDescByDiscount (products.filter dealOk)).take 20

/-- First statement of the pass: clear `is_daily_deal` everywhere it is
set (the bulk `update` touches exactly the flagged rows, leaving every
other column alone, so mapping the reset over all rows is the same
table). -/
def clearDailyDeals (products : List Product) : List Product :=
  products.map (fun p => { p with is_daily_deal := false })

/-- Marking step: flag the sampled rows and stamp `updated_at`. -/
def dealMarkOne (now : ℤ) (selIds : List ℕ) (p : Product) : Product :=
  if p.id ∈ selIds then { p with is_daily_deal := true, updated_at := now } else p

/-- Embeds `PriceMonitor.refresh_daily_deals` as a table transformation, with
the ids drawn by `random.sample` passed in as `selIds`. -/
def refresh_daily_deals (now : ℤ) (selIds : List ℕ) (products : List Product) :
    List Product :=
  (clearDailyDeals products).map (dealMarkOne now selIds)

/-! ### Retention sweep -/

structure ClickRow where
  id : ℕ
  user_id : ℕ
  product_id : ℕ
  clicked_at : ℤ
deriving DecidableEq

structure User where
  id : ℕ
  telegram_id : ℤ
  is_active : Bool
deriving DecidableEq

/-- The tables `cleanup_old_data` can see. -/
structure DBState where
  products : List Product
  users : List User
  clicks : List ClickRow
deriving DecidableEq

/-- Embeds `PriceMonitor.cleanup_old_data`: delete click rows older than
90 days (7776000 seconds). -/
def cleanup_old_data (now : ℤ) (db : DBState) : DBState :=
  { db with clicks := db.clicks.filter (fun r => !decide (r.clicked_at < now - 7776000)) }

/-! ## Notification send loop (`NotificationManager`)

Both `send_daily_deals_notification` and `send_price_drop_alert` run the
same per-recipient loop: send, count on success, and on a
`TelegramError` whose text contains "bot was blocked" (lower-cased)
deactivate the user. The transport's behaviour is an oracle keyed by
`telegram_id`. -/

inductive SendOutcome where
  | ok : SendOutcome
  | err : String → SendOutcome
deriving DecidableEq

/-- The `except TelegramError` handler for one user. -/
def applySendFailure (msg : String) (u : User) : User :=
  if containsSub "bot was blocked" (lowerStr msg) then { u with is_active := false } else u

/-- Final state of one recipient after its loop iteration. -/
def sendStep (outcome : ℤ → SendOutcome) (u : User) : User :=
  match outcome u.telegram_id with
  | SendOutcome.ok => u
  | SendOutcome.err m => applySendFailure m u

/-- Contribution of one recipient to `sent_count`. -/
def sendCountStep (outcome : ℤ → SendOutcome) (u : User) : ℕ :=
  match outcome u.telegram_id with
  | SendOutcome.ok => 1
  | SendOutcome.err _ => 0

/-- The whole per-recipient loop: updated user rows and `sent_count`. -/
def notificationSendPass (outcome : ℤ → SendOutcome) : List User → List User × ℕ
  | [] => ([], 0)
  | u :: rest =>
    let r := notificationSendPass outcome rest
    (sendStep outcome u :: r.1, sendCountStep outcome u + r.2)

/-! ## Concrete instances used by witnesses and counterexamples -/

/-- A store name hits one of the dispatcher's substring cases. -/
def knownNetwork (s : String) : Bool :=
  containsSub "amazon" s || containsSub "ebay" s || containsSub "aliexpress" s ||
    containsSub "walmart" s || containsSub "target" s ||
    containsSub "bestbuy" s || containsSub "best buy" s

/-- An active, stale product with an out-of-date stored discount. -/
def cexStale : Product :=
  { id := 1, price := some 80, original_price := some 100,
    discount_percentage := some 5, rating := none,
    is_active := true, is_daily_deal := false, updated_at := -10000 }

/-- A product used to exercise the discount recomputation. -/
def wDiscP : Product :=
  { id := 2, price := some 100, original_price := some 120,
    discount_percentage := some 10, rating := none,
    is_active := true, is_daily_deal := false, updated_at := 0 }

/-- A product with a price but no original price. -/
def wDropP : Product :=
  { id := 3, price := some 100, original_price := none,
    discount_percentage := none, rating := none,
    is_active := true, is_daily_deal := false, updated_at := 0 }

/-- An eligible (active, stale) product for the batch pass. -/
def wEligP : Product :=
  { id := 10, price := some 50, original_price := none,
    discount_percentage := none, rating := none,
    is_active := true, is_daily_deal := false, updated_at := 0 }

/-- An inactive product the batch pass must leave alone. -/
def wInactP : Product :=
  { id := 11, price := some 50, original_price := none,
    discount_percentage := none, rating := none,
    is_active := false, is_daily_deal := false, updated_at := 0 }

/-- A lone daily-deal candidate (active, 20% off, rating 5). -/
def cexDealP : Product :=
  { id := 7, price := some 10, original_price := none,
    discount_percentage := some 20, rating := some 5,
    is_active := true, is_daily_deal := false, updated_at := 0 }

/-- An unconfigured `Config` (every credential absent). -/
def cfgEmpty : Config := {}

/-- An active notification recipient. -/
def wUser : User := { id := 1, telegram_id := 100, is_active := true }

/-- Transport oracle that always fails with a message containing
"blocked" but not "bot was blocked". -/
def oracleBlockedPeer : ℤ → SendOutcome :=
  fun _ => SendOutcome.err "blocked by peer"

/-- Transport oracle that always fails with the Telegram hard-bounce
message. -/
def oracleBotBlocked : ℤ → SendOutcome :=
  fun _ => SendOutcome.err "Forbidden: bot was blocked by the user"

/-! ## Helper lemmas -/

theorem takeCat_length : ∀ (n : ℕ) (cs : List Char) (pr : List Char × List Char),
    takeCat n cs = some pr → pr.1.length = n := by
  intro n
  induction n with
  | zero =>
    intro cs pr h
    unfold takeCat at h
    injection h with h
    subst h
    rfl
  | succ n ih =>
    intro cs pr h
    cases cs with
    | nil => simp [takeCat] at h
    | cons c cs =>
      unfold takeCat at h
      split at h
      · cases htc : takeCat n cs with
        | none => rw [htc] at h; simp at h
        | some pr2 =>
          rw [htc] at h
          injection h with h
          subst h
          simp [ih cs pr2 htc]
      · simp at h

theorem matchAsinAt_length (lit : List Char) (tailOk : List Char → Bool)
    (cs cap : List Char) (h : matchAsinAt lit tailOk cs = some cap) :
    cap.length = 10 := by
  unfold matchAsinAt at h
  split at h
  · split at h
    · split at h
      · injection h with h
        subst h
        exact takeCat_length 10 _ _ (by assumption)
      · simp at h
    · simp at h
  · simp at h

theorem searchAsin_length (lit : List Char) (tailOk : List Char → Bool) :
    ∀ (cs cap : List Char), searchAsin lit tailOk cs = some cap → cap.length = 10 := by
  intro cs
  induction cs with
  | nil =>
    intro cap h
    unfold searchAsin at h
    exact matchAsinAt_length _ _ _ _ h
  | cons c rest ih =>
    intro cap h
    unfold searchAsin at h
    cases hm : matchAsinAt lit tailOk (c :: rest) with
    | some cap2 =>
      rw [hm] at h
      injection h with h
      subst h
      exact matchAsinAt_length _ _ _ _ hm
    | none =>
      rw [hm] at h
      exact ih cap h

theorem extract_amazon_asin_length (url a : String)
    (h : extract_amazon_asin url = some a) : a.length = 10 := by
  simp only [extract_amazon_asin] at h
  repeat' split at h
  all_goals
    first
    | (injection h with h
       subst h
       exact searchAsin_length _ _ _ _ (by assumption))
    | simp at h

theorem extract_amazon_asin_ne_empty (url a : String)
    (h : extract_amazon_asin url = some a) : a ≠ "" := by
  intro hempty
  have hl := extract_amazon_asin_length url a h
  rw [hempty] at hl
  simp at hl

theorem mem_insertDescByDiscount {a p : Product} {l : List Product} :
    a ∈ insertDescByDiscount p l ↔ a = p ∨ a ∈ l := by
  induction l with
  | nil => simp [insertDescByDiscount]
  | cons q rest ih =>
    unfold insertDescByDiscount
    split
    · simp only [List.mem_cons]
    · simp only [List.mem_cons, ih]
      tauto

theorem mem_sortDescByDiscount {a : Product} {l : List Product} :
    a ∈ sortDescByDiscount l ↔ a ∈ l := by
  induction l with
  | nil => simp [sortDescByDiscount]
  | cons p rest ih =>
    unfold sortDescByDiscount
    rw [mem_insertDescByDiscount, ih]
    simp

theorem dealMarkOne_id (now : ℤ) (selIds : List ℕ) (p : Product) :
    (dealMarkOne now selIds p).id = p.id := by
  unfold dealMarkOne
  split <;> rfl

theorem dealMarkOne_flag (now : ℤ) (selIds : List ℕ) (p : Product)
    (h : (dealMarkOne now selIds p).is_daily_deal = true) :
    p.is_daily_deal = true ∨ p.id ∈ selIds := by
  unfold dealMarkOne at h
  split at h
  · right
    assumption
  · left
    exact h

/-! ## Claim theorems -/

/-- C2: the Amazon identifier extractor tries its patterns in order with
the first match winning; on the spec's example URL it returns
`B0CHX1W1XY`; every extracted identifier has 10 characters and yields
the canonical `/dp/<id>` URL with the fixed auxiliary parameters; when
no pattern matches and no `product_id` is supplied, the builder appends
`tag=<associate_tag>` with `&` precisely when the URL already has a
query string. -/
theorem amazon_link_extraction_spec (tag url : String) (pid : Option String)
    (htag : tag ≠ "") :
    (extract_amazon_asin "https://www.amazon.com/dp/B0CHX1W1XY?x=1" = some "B0CHX1W1XY"
      ∧ extract_amazon_asin "https://x.com/ABCDEFGHIJ/dp/ZZZZZZZZZ1" = some "ZZZZZZZZZ1")
    ∧ (∀ a, extract_amazon_asin url = some a → a.length = 10)
    ∧ (∀ a, extract_amazon_asin url = some a →
        generate_amazon_link tag url pid =
          "https://www.amazon.com/dp/" ++ a ++ "?tag=" ++ tag ++ "&linkCode=ogi&th=1&psc=1")
    ∧ (extract_amazon_asin url = none → pid = none →
        generate_amazon_link tag url pid =
          url ++ (if url.toList.contains '?' then "&" else "?") ++ "tag=" ++ tag) := by
  refine ⟨⟨by decide, by decide⟩, fun a ha => extract_amazon_asin_length url a ha, ?_, ?_⟩
  · intro a ha
    have hne := extract_amazon_asin_ne_empty url a ha
    simp [generate_amazon_link, pyOrStr, htag, ha, hne]
  · intro hnone hpid
    simp [generate_amazon_link, pyOrStr, amazonTagAppend, htag, hnone, hpid]

/-- C2 witness: the theorem applied to the example URL (identifier
found) and to a pattern-free URL with no product id (tag-append
fallback). -/
theorem amazon_link_extraction_spec_witness :
    generate_amazon_link "t" "https://www.amazon.com/dp/B0CHX1W1XY?x=1" none =
      "https://www.amazon.com/dp/" ++ "B0CHX1W1XY" ++ "?tag=" ++ "t" ++ "&linkCode=ogi&th=1&psc=1"
    ∧ generate_amazon_link "t" "https://example.com/item" none =
      "https://example.com/item" ++
        (if ("https://example.com/item").toList.contains '?' then "&" else "?") ++ "tag=" ++ "t" := by
  constructor
  · exact (amazon_link_extraction_spec "t" "https://www.amazon.com/dp/B0CHX1W1XY?x=1" none
      (by decide)).2.2.1 "B0CHX1W1XY" (by decide)
  · exact (amazon_link_extraction_spec "t" "https://example.com/item" none
      (by decide)).2.2.2 (by decide) rfl

/-- C10: when extraction fails, a supplied non-empty `product_id` is used
as the catalog identifier and produces the canonical URL; the tag-append
fallback is reached exactly when no (non-empty) `product_id` is
supplied. -/
theorem amazon_product_id_fallback_spec (tag url : String) (pid : Option String)
    (htag : tag ≠ "") (hex : extract_amazon_asin url = none) :
    (∀ p, pid = some p → p ≠ "" →
      generate_amazon_link tag url pid =
        "https://www.amazon.com/dp/" ++ p ++ "?tag=" ++ tag ++ "&linkCode=ogi&th=1&psc=1")
    ∧ ((pid = none ∨ pid = some "") →
      generate_amazon_link tag url pid =
        url ++ (if url.toList.contains '?' then "&" else "?") ++ "tag=" ++ tag) := by
  constructor
  · intro p hp hpne
    simp [generate_amazon_link, pyOrStr, htag, hex, hp, hpne]
  · intro hcase
    cases hcase with
    | inl h => simp [generate_amazon_link, pyOrStr, amazonTagAppend, htag, hex, h]
    | inr h => simp [generate_amazon_link, pyOrStr, amazonTagAppend, htag, hex, h]

/-- C10 witness: extraction fails on the URL, the supplied product id is
used for the canonical link. -/
theorem amazon_product_id_fallback_spec_witness :
    generate_amazon_link "t" "https://example.com/item" (some "B000000001") =
      "https://www.amazon.com/dp/" ++ "B000000001" ++ "?tag=" ++ "t" ++ "&linkCode=ogi&th=1&psc=1" :=
  (amazon_product_id_fallback_spec "t" "https://example.com/item" (some "B000000001")
    (by decide) (by decide)).1 "B000000001" rfl (by decide)

/-- C3 counterexample: with the Amazon tag configured and an Amazon
store name, an unparseable product URL does not fall back to the
original URL — the builder appends `?tag=...` instead, so "on any
network-specific failure it returns the original product_url" is false
as stated. -/
theorem affiliate_fallback_not_original_cex :
    generate_affiliate_link { AMAZON_ASSOCIATE_TAG := "t" } 0
        "https://example.com/item" "amazon" none ≠ "https://example.com/item"
    ∧ generate_affiliate_link { AMAZON_ASSOCIATE_TAG := "t" } 0
        "https://example.com/item" "amazon" none = "https://example.com/item?tag=t" := by
  exact ⟨by decide, by decide⟩

/-- C3 (amended): `generate_affiliate_link` is total; a missing
credential makes the dispatched builder return the original URL
unchanged; a store name matching no known network substring yields the
generic UTM append; an Amazon parse-miss with the credential present
yields the tag-append of the original URL (not the original URL
itself). -/
theorem affiliate_link_fallback_spec (cfg : Config) (now : ℤ) (url store : String)
    (pid : Option String) :
    (knownNetwork (lowerStr store) = false →
      generate_affiliate_link cfg now url store pid =
        generate_generic_tracking_link url (lowerStr store))
    ∧ (containsSub "amazon" (lowerStr store) = true →
       cfg.AMAZON_ASSOCIATE_TAG = "" →
      generate_affiliate_link cfg now url store pid = url)
    ∧ (containsSub "amazon" (lowerStr store) = false →
       containsSub "ebay" (lowerStr store) = true →
       optTruthy cfg.EBAY_CAMPAIGN_ID = false →
      generate_affiliate_link cfg now url store pid = url)
    ∧ (containsSub "amazon" (lowerStr store) = false →
       containsSub "ebay" (lowerStr store) = false →
       containsSub "aliexpress" (lowerStr store) = true →
       optTruthy cfg.ALIEXPRESS_TRACKING_ID = false →
      generate_affiliate_link cfg now url store pid = url)
    ∧ (containsSub "amazon" (lowerStr store) = false →
       containsSub "ebay" (lowerStr store) = false →
       containsSub "aliexpress" (lowerStr store) = false →
       containsSub "walmart" (lowerStr store) = true →
       optTruthy cfg.WALMART_PUBLISHER_ID = false →
      generate_affiliate_link cfg now url store pid = url)
    ∧ (containsSub "amazon" (lowerStr store) = false →
       containsSub "ebay" (lowerStr store) = false →
       containsSub "aliexpress" (lowerStr store) = false →
       containsSub "walmart" (lowerStr store) = false →
       containsSub "target" (lowerStr store) = true →
       optTruthy cfg.TARGET_PUBLISHER_ID = false →
      generate_affiliate_link cfg now url store pid = url)
    ∧ (containsSub "amazon" (lowerStr store) = false →
       containsSub "ebay" (lowerStr store) = false →
       containsSub "aliexpress" (lowerStr store) = false →
       containsSub "walmart" (lowerStr store) = false →
       containsSub "target" (lowerStr store) = false →
       (containsSub "bestbuy" (lowerStr store) || containsSub "best buy" (lowerStr store)) = true →
       optTruthy cfg.BESTBUY_PUBLISHER_ID = false →
      generate_affiliate_link cfg now url store pid = url)
    ∧ (containsSub "amazon" (lowerStr store) = true →
       cfg.AMAZON_ASSOCIATE_TAG ≠ "" →
       extract_amazon_asin url = none → pid = none →
      generate_affiliate_link cfg now url store pid =
        url ++ (if url.toList.contains '?' then "&" else "?") ++
          "tag=" ++ cfg.AMAZON_ASSOCIATE_TAG) := by
  refine ⟨?_, ?_, ?_, ?_, ?_, ?_, ?_, ?_⟩
  · intro h
    simp only [knownNetwork, Bool.or_eq_false_iff] at h
    obtain ⟨⟨⟨⟨⟨⟨h1, h2⟩, h3⟩, h4⟩, h5⟩, h6⟩, h7⟩ := h
    simp [generate_affiliate_link, h1, h2, h3, h4, h5, h6, h7]
  · intro h1 h2
    simp [generate_affiliate_link, h1, generate_amazon_link, h2]
  · intro h1 h2 h3
    simp [generate_affiliate_link, h1, h2, generate_ebay_link, h3]
  · intro h1 h2 h3 h4
    simp [generate_affiliate_link, h1, h2, h3, generate_aliexpress_link, h4]
  · intro h1 h2 h3 h4 h5
    simp [generate_affiliate_link, h1, h2, h3, h4, generate_walmart_link, h5]
  · intro h1 h2 h3 h4 h5 h6
    simp [generate_affiliate_link, h1, h2, h3, h4, h5, generate_target_link, h6]
  · intro h1 h2 h3 h4 h5 h6 h7
    simp [generate_affiliate_link, h1, h2, h3, h4, h5, h6, generate_bestbuy_link, h7]
  · intro h1 h2 h3 h4
    simp [generate_affiliate_link, h1, generate_amazon_link, pyOrStr, amazonTagAppend,
      h2, h3, h4]

/-- C3 witness: with no credential configured, an Amazon store name
returns the URL unchanged, and an unknown store name gets the generic
UTM append. -/
theorem affiliate_link_fallback_spec_witness :
    generate_affiliate_link cfgEmpty 0 "https://a.com/x" "Amazon" none = "https://a.com/x"
    ∧ generate_affiliate_link cfgEmpty 0 "https://a.com/x" "Shopify" none =
        generate_generic_tracking_link "https://a.com/x" (lowerStr "Shopify") := by
  constructor
  · exact (affiliate_link_fallback_spec cfgEmpty 0 "https://a.com/x" "Amazon" none).2.1
      (by decide) rfl
  · exact (affiliate_link_fallback_spec cfgEmpty 0 "https://a.com/x" "Shopify" none).1
      (by decide)

/-- C7: the generic builder appends the four UTM parameters (with
`utm_content` the lower-cased, underscore-separated store name) using
the `?`/`&` disambiguation rule, and it is not idempotent: applying it
twice to a URL duplicates the query parameters, giving a different
string. -/
theorem generic_utm_append_spec (url store : String) :
    generate_generic_tracking_link url store =
      url ++ (if url.toList.contains '?' then "&" else "?") ++
        ("utm_source=telegram_bot&utm_medium=affiliate&utm_campaign=deals_bot&utm_content=" ++
          pyQuotePlus (replUnderscore (lowerStr store)))
    ∧ generate_generic_tracking_link
        (generate_generic_tracking_link "https://example.com/p" "My Store") "My Store" ≠
      generate_generic_tracking_link "https://example.com/p" "My Store" :=
  ⟨rfl, by decide⟩

/-- C1 counterexample: a selected (active, stale) product whose
simulated price equals the old price — the majority "no change" outcome
of `_simulate_price_change` — is written back unchanged, so its stale
stored discount of 5% differs from the formula value
`(100 - 80) / 100 * 100 = 20`. -/
theorem price_update_stale_discount_cex :
    updateEligible 1000 cexStale = true
    ∧ update_product_prices (fun q => q) 1000 [cexStale] = [cexStale]
    ∧ cexStale.discount_percentage = some 5
    ∧ (100 - 80 : ℚ) / 100 * 100 = 20 :=
  ⟨by decide, by decide, rfl, by norm_num⟩

/-- C1 (amended): for a product with a truthy price and a positive
original price, the per-product update leaves everything unchanged when
the simulated price equals the old one; when it differs, the stored
discount becomes `(original - new) / original * 100` if the original
price exceeds the new price, and null otherwise. -/
theorem price_update_discount_recompute (f : ℚ → ℚ) (now : ℤ) (p : Product)
    (op orig : ℚ) (hp : p.price = some op) (hop : op ≠ 0)
    (ho : p.original_price = some orig) (horig : 0 < orig) :
    (f op = op → priceUpdateStep f now p = (p, false))
    ∧ (f op ≠ op → orig > f op →
      (priceUpdateStep f now p).1.discount_percentage =
        some ((orig - f op) / orig * 100))
    ∧ (f op ≠ op → orig ≤ f op →
      (priceUpdateStep f now p).1.discount_percentage = none) := by
  refine ⟨?_, ?_, ?_⟩
  · intro heq
    simp [priceUpdateStep, hp, hop, heq]
  · intro hne hgt
    have hd : 0 < (orig - f op) / orig * 100 :=
      mul_pos (div_pos (by linarith) horig) (by norm_num)
    simp [priceUpdateStep, hp, hop, hne, ho, horig.ne', hd]
  · intro hne hle
    have hq : (orig - f op) / orig * 100 ≤ 0 := by
      have h1 : (orig - f op) / orig ≤ 0 :=
        div_nonpos_iff.mpr (Or.inr ⟨by linarith, horig.le⟩)
      linarith
    have hd : ¬ (0 < (orig - f op) / orig * 100) := not_lt.mpr hq
    simp [priceUpdateStep, hp, hop, hne, ho, horig.ne', hd]

/-- C1 witness: a 120 → 90 original/new pair yields a stored discount
of 25%. -/
theorem price_update_discount_recompute_witness :
    (priceUpdateStep (fun _ => (90 : ℚ)) 5 wDiscP).1.discount_percentage = some 25 := by
  have h := (price_update_discount_recompute (fun _ => (90 : ℚ)) 5 wDiscP 100 120 rfl
    (by norm_num) rfl (by norm_num)).2.1 (by norm_num) (by norm_num)
  rw [h]
  norm_num

/-- C6 counterexample: a price drop of exactly 10% (100 → 90) satisfies
the claim's condition `new_price ≤ 0.9 * old_price` but queues no
notification, because the source uses the strict comparison
`new_price < old_price * 0.9`. -/
theorem price_drop_threshold_cex :
    (priceUpdateStep (fun _ => (90 : ℚ)) 0 wDropP).2 = false
    ∧ (90 : ℚ) ≤ 100 * (9 / 10) := by
  constructor
  · have h : ¬ ((90 : ℚ) < 100 * (9 / 10)) := by norm_num
    norm_num [priceUpdateStep, wDropP, h]
  · norm_num

/-- C6 (amended): for a product with a positive price, the per-product
update queues a price-drop notification exactly when the simulated
price is strictly below 90% of the old price. -/
theorem price_drop_notification_iff (f : ℚ → ℚ) (now : ℤ) (p : Product) (op : ℚ)
    (hp : p.price = some op) (hpos : 0 < op) :
    ((priceUpdateStep f now p).2 = true ↔ f op < op * (9 / 10)) := by
  by_cases h : f op = op
  · simp only [priceUpdateStep, hp, if_neg hpos.ne', if_pos h]
    simp only [Bool.false_eq_true, false_iff]
    intro hlt
    rw [h] at hlt
    linarith
  · simp [priceUpdateStep, hp, hpos.ne', h]

/-- C6 witness: a 15% drop (100 → 85) queues a notification. -/
theorem price_drop_notification_iff_witness :
    (priceUpdateStep (fun _ => (85 : ℚ)) 0 wDropP).2 = true :=
  (price_drop_notification_iff (fun _ => (85 : ℚ)) 0 wDropP 100 rfl (by norm_num)).mpr
    (by norm_num)

/-- C5: one invocation of the price-update pass selects at most 50
products, every selected product is active with `updated_at` strictly
before `now - 2h`, the table keeps its length, and every ineligible row
is mapped to itself. -/
theorem price_update_batch_spec (f : ℚ → ℚ) (now : ℤ) (products : List Product)
    (hnd : (products.map (fun p => p.id)).Nodup) :
    (updateBatch now products).length ≤ 50
    ∧ (∀ p ∈ updateBatch now products, p.is_active = true ∧ p.updated_at < now - 7200)
    ∧ (update_product_prices f now products).length = products.length
    ∧ (∀ p ∈ products, updateEligible now p = false →
        updateOne f now ((updateBatch now products).map (fun p => p.id)) p = p) := by
  refine ⟨?_, ?_, ?_, ?_⟩
  · simp only [updateBatch, List.length_take]
    exact Nat.min_le_left _ _
  · intro p hp
    have hf := List.mem_of_mem_take hp
    have he := (List.mem_filter.mp hf).2
    simpa only [updateEligible, Bool.and_eq_true, decide_eq_true_eq] using he
  · simp [update_product_prices]
  · intro p hp hne
    have hnotmem : p.id ∉ (updateBatch now products).map (fun p => p.id) := by
      intro hmem
      rw [List.mem_map] at hmem
      obtain ⟨q, hq, hqid⟩ := hmem
      have hqf := List.mem_of_mem_take hq
      have hqp := (List.mem_filter.mp hqf).1
      have hqe := (List.mem_filter.mp hqf).2
      have hpq : p = q := List.inj_on_of_nodup_map hnd hp hqp hqid.symm
      rw [← hpq] at hqe
      rw [hne] at hqe
      exact Bool.false_ne_true hqe
    simp [updateOne, hnotmem]

/-- C5 witness: with one eligible and one inactive product, the
inactive one is left unchanged by the pass. -/
theorem price_update_batch_spec_witness :
    updateOne (fun q => q) 100000
        ((updateBatch 100000 [wEligP, wInactP]).map (fun p => p.id)) wInactP = wInactP :=
  (price_update_batch_spec (fun q => q) 100000 [wEligP, wInactP] (by decide)).2.2.2 wInactP
    (by decide) (by decide)

/-- C4 counterexample: with a single qualifying candidate,
`random.sample(candidates, min(num_deals, len(candidates)))` draws one
product, so the newly selected set has size 1 — outside the claimed
[8, 12] bounds — and moreover equals the whole candidate set, so it is
not a strict subset. -/
theorem daily_deals_size_cex :
    dealCandidates [cexDealP] = [cexDealP]
    ∧ List.countP (fun p => p.is_daily_deal) (refresh_daily_deals 0 [7] [cexDealP]) = 1
    ∧ ¬ (8 ≤ List.countP (fun p => p.is_daily_deal) (refresh_daily_deals 0 [7] [cexDealP])) :=
  ⟨by decide, by decide, by decide⟩

/-- C4 (amended): the pass clears every daily-deal flag before marking;
every product flagged by the new pass has its id among the candidates
(each active with discount ≥ 15 and rating ≥ 4); the drawn sample has
`min(num_deals, #candidates)` elements for some `num_deals ∈ [8, 12]`,
hence at most 12, and its size is within [8, 12] whenever at least
`num_deals` candidates exist. -/
theorem daily_deals_refresh_spec (now : ℤ) (products sel : List Product) (num : ℕ)
    (h8 : 8 ≤ num) (h12 : num ≤ 12)
    (hsub : ∀ q ∈ sel, q ∈ dealCandidates products)
    (hlen : sel.length = min num (dealCandidates products).length) :
    (∀ p ∈ clearDailyDeals products, p.is_daily_deal = false)
    ∧ (∀ p ∈ refresh_daily_deals now (sel.map (fun q => q.id)) products,
        p.is_daily_deal = true → p.id ∈ (dealCandidates products).map (fun q => q.id))
    ∧ (∀ q ∈ dealCandidates products,
        q.is_active = true ∧ optGE q.discount_percentage 15 = true
          ∧ optGE q.rating 4 = true)
    ∧ sel.length ≤ 12
    ∧ (num ≤ (dealCandidates products).length → 8 ≤ sel.length ∧ sel.length ≤ 12) := by
  refine ⟨?_, ?_, ?_, ?_, ?_⟩
  · intro p hp
    simp only [clearDailyDeals, List.mem_map] at hp
    obtain ⟨q, _, rfl⟩ := hp
    rfl
  · intro p hp hflag
    simp only [refresh_daily_deals, clearDailyDeals, List.map_map, List.mem_map,
      Function.comp] at hp
    obtain ⟨q, _, hpq⟩ := hp
    subst hpq
    have hid := dealMarkOne_flag now (sel.map (fun r => r.id))
      { q with is_daily_deal := false } hflag
    rcases hid with hid | hid
    · exact absurd hid (by simp)
    · rw [dealMarkOne_id]
      simp only [List.mem_map] at hid ⊢
      obtain ⟨s, hs, hsid⟩ := hid
      exact ⟨s, hsub s hs, hsid⟩
  · intro q hq
    have h1 := List.mem_of_mem_take hq
    rw [mem_sortDescByDiscount] at h1
    have h2 := (List.mem_filter.mp h1).2
    simp only [dealOk, Bool.and_eq_true] at h2
    exact ⟨h2.1.1, h2.1.2, h2.2⟩
  · rw [hlen]
    exact le_trans (Nat.min_le_left _ _) h12
  · intro h
    rw [hlen, Nat.min_eq_left h]
    exact ⟨h8, h12⟩

/-- C4 witness: a one-candidate table with the code-mandated sample of
size `min(8, 1) = 1` satisfies the amended bound `size ≤ 12`. -/
theorem daily_deals_refresh_spec_witness :
    ([cexDealP] : List Product).length ≤ 12 :=
  (daily_deals_refresh_spec 0 [cexDealP] [cexDealP] 8 (by norm_num) (by norm_num)
    (by decide) (by decide)).2.2.2.1

/-- C8: the retention sweep keeps exactly the click rows at or after
`now - 90d` (deleting exactly those strictly before the cutoff) and
leaves the products and users tables untouched. -/
theorem cleanup_retention_spec (now : ℤ) (db : DBState) :
    (cleanup_old_data now db).products = db.products
    ∧ (cleanup_old_data now db).users = db.users
    ∧ (∀ r : ClickRow, r ∈ (cleanup_old_data now db).clicks ↔
        (r ∈ db.clicks ∧ now - 7776000 ≤ r.clicked_at)) := by
  refine ⟨rfl, rfl, fun r => ?_⟩
  simp [cleanup_old_data, List.mem_filter, not_lt]

/-- C9 counterexample: a delivery failure whose message contains
"blocked" but not "bot was blocked" leaves the recipient active, so
"message contains 'blocked' implies deactivation" is false as stated —
the source tests for the exact substring "bot was blocked". -/
theorem blocked_substring_cex :
    containsSub "blocked" (lowerStr "blocked by peer") = true
    ∧ (notificationSendPass oracleBlockedPeer [wUser]).1 = [wUser]
    ∧ wUser.is_active = true :=
  ⟨by decide, by decide, rfl⟩

/-- C9 (amended): the send loop is total and visits each recipient
exactly once; the resulting rows are the per-user step applied
pointwise; the reported count is the number of successful sends; a
failure whose lower-cased message contains "bot was blocked"
deactivates the user, and any other outcome leaves the user
unchanged (no retry). -/
theorem notification_pass_spec (outcome : ℤ → SendOutcome) (users : List User) :
    (notificationSendPass outcome users).1 = users.map (sendStep outcome)
    ∧ (notificationSendPass outcome users).2 =
        List.countP (fun u => decide (outcome u.telegram_id = SendOutcome.ok)) users
    ∧ (notificationSendPass outcome users).1.length = users.length
    ∧ (∀ u : User, ∀ m : String, outcome u.telegram_id = SendOutcome.err m →
        containsSub "bot was blocked" (lowerStr m) = true →
        (sendStep outcome u).is_active = false)
    ∧ (∀ u : User, ∀ m : String, outcome u.telegram_id = SendOutcome.err m →
        containsSub "bot was blocked" (lowerStr m) = false →
        sendStep outcome u = u)
    ∧ (∀ u : User, outcome u.telegram_id = SendOutcome.ok → sendStep outcome u = u) := by
  refine ⟨?_, ?_, ?_, ?_, ?_, ?_⟩
  · induction users with
    | nil => rfl
    | cons u rest ih => simp [notificationSendPass, ih]
  · induction users with
    | nil => rfl
    | cons u rest ih =>
      simp only [notificationSendPass, List.countP_cons, ← ih]
      unfold sendCountStep
      cases h : outcome u.telegram_id
      all_goals simp [h]
      all_goals omega
  · induction users with
    | nil => rfl
    | cons u rest ih => simp [notificationSendPass, ih]
  · intro u m hm hc
    simp [sendStep, hm, applySendFailure, hc]
  · intro u m hm hc
    simp [sendStep, hm, applySendFailure, hc]
  · intro u hm
    simp [sendStep, hm]

/-- C9 witness: the Telegram hard-bounce message deactivates the
recipient. -/
theorem notification_pass_spec_witness :
    (sendStep oracleBotBlocked wUser).is_active = false :=
  (notification_pass_spec oracleBotBlocked [wUser]).2.2.2.1 wUser
    "Forbidden: bot was blocked by the user" rfl (by decide)

end SmartDeals
